import Mathlib

/-!
Verification of the witrn-ui-bokeh measurement pipeline (witrn-ui-bokeh.py).

Shallow embedding conventions:
* instants (`datetime.now()`) are modelled as `Int` milliseconds; the Python
  comparison `(now - last) > timedelta(milliseconds=p)` becomes `now - last > p`
  over `Int`;
* measurement values (`float` voltage, current, ...) are modelled as `ℚ`;
* module-level mutable globals become fields of an explicit `AppState` record;
* `doc.add_next_tick_callback(...)` submissions to the Bokeh document become
  values of the `UIUpdate` inductive, returned alongside the new state; an
  appended CSV row becomes a `LogRow` value;
* `ColumnDataSource.stream(..., rollover=MAX_X_POINTS)` keeps the last
  `MAX_X_POINTS` entries, dropping from the front (bokeh's documented
  rollover behaviour), embedded as `streamRollover`.
-/

/-- Protocol command tag (`driver.protocol.Command`); only `DAT_RECV` carries
a measurement, every other tag is collapsed into `other`. -/
inductive Command where
  | DAT_RECV
  | other
deriving DecidableEq

/-- The measurement fields of `packet.payload.data` used by `on_packet`
(lines 199-249). -/
structure RawData where
  voltage : ℚ
  current : ℚ
  ah : ℚ
  wh : ℚ
  recmA : Int
  recTime : Int
  recGrp : Int
  runTime : Int
  offHour : Int
  offPer : Int
  reserved : Int
deriving DecidableEq

/-- `packet.payload`: a command tag plus measurement data. -/
structure HIDPayload where
  command : Command
  data : RawData
deriving DecidableEq

/-- `HIDPacket` as consumed by `on_packet`. -/
structure HIDPacket where
  payload : HIDPayload
deriving DecidableEq

/-- The `state` enum of the script (lines 173-177). -/
inductive MState where
  | STOPPED
  | INITIALIZING
  | RUNNING
  | STOPPING
deriving DecidableEq

/-- One point of the plot `data_source` columns (lines 57-61). -/
structure PlotPoint where
  dateTime : Int
  dateTimeStr : String
  voltage : ℚ
  current : ℚ
  power : ℚ
deriving DecidableEq

/-- One CSV row as written by `on_packet` (lines 213-217): timestamp, voltage,
post-sign current, power, ah, wh, recmA, recTime, recGrp+1, runTime. -/
structure LogRow where
  timestamp : Int
  voltage : ℚ
  current : ℚ
  power : ℚ
  ah : ℚ
  wh : ℚ
  recmA : Int
  recTime : Int
  recGrp : Int
  runTime : Int
deriving DecidableEq

/-- The values interpolated into the `measurement_label` HTML text
(lines 231-247). -/
structure MeasData where
  voltage : ℚ
  current : ℚ
  power : ℚ
  timeStr : String
  ah : ℚ
  wh : ℚ
  recmA : Int
  recTime : Int
  grp : Int
  runTime : Int
  offHour : Int
  offPer : Int
  reserved : Int
deriving DecidableEq

/-- A task submitted to the UI consumer loop via
`doc.add_next_tick_callback` (or, for `stream`, the `update` coroutine). -/
inductive UIUpdate where
  | setStatusText (t : String)
  | setDeviceSelectDisabled (b : Bool)
  | setOpenConnDisabled (b : Bool)
  | setInvertSwitchDisabled (b : Bool)
  | setCloseConnDisabled (b : Bool)
  | stream (p : PlotPoint)
  | setMeasText (m : MeasData)
deriving DecidableEq

/-- `MAX_X_POINTS` (line 50). -/
def MAX_X_POINTS : Nat := 6000

/-- The module-level mutable globals of the script, gathered into one record:
state-machine variable `main_state` (line 178), CSV logging variables
(lines 131-134), meter variables (lines 136-143), the plot title (line 37),
the `data_source` columns (here `window`), the `status_label` text, the
`measurement_label` contents, and the `disabled` flags of the widgets. -/
structure AppState where
  mainState : MState
  logging : Bool
  log_period_ms : Int
  plot_period_ms : Int
  csv_file : String
  plot_title : String
  last_meas_time : Option Int
  last_plot_time : Option Int
  last_log_time : Option Int
  invert_current : Bool
  window : List PlotPoint
  statusText : String
  measData : Option MeasData
  deviceSelectDisabled : Bool
  openConnDisabled : Bool
  closeConnDisabled : Bool
  invertSwitchDisabled : Bool
  titleInputDisabled : Bool
  logPeriodDisabled : Bool
  startLogDisabled : Bool
  stopLogDisabled : Bool
  clearPlotDisabled : Bool
deriving DecidableEq

/-- The initial values of the globals and widget `disabled` flags
(lines 131-160, 178): logging off, log period 250 ms, plot period 0 ms,
title "Witrn", no connection, current-sign inversion on, close/stop buttons
disabled. -/
def initialAppState : AppState :=
  { mainState := MState.STOPPED
    logging := false
    log_period_ms := 250
    plot_period_ms := 0
    csv_file := ""
    plot_title := "Witrn"
    last_meas_time := none
    last_plot_time := none
    last_log_time := none
    invert_current := true
    window := []
    statusText := ""
    measData := none
    deviceSelectDisabled := false
    openConnDisabled := false
    closeConnDisabled := true
    invertSwitchDisabled := false
    titleInputDisabled := false
    logPeriodDisabled := false
    startLogDisabled := false
    stopLogDisabled := true
    clearPlotDisabled := false }

/-- The per-gate timestamp pattern of `on_packet` for each of the three gates
(plot, log, status): lines 192-197 initialize a `None` last-fire time to
`datetime_now` before any comparison, and lines 210/220/230 fire on the strict
comparison `now - last > period`, recording `now` on fire (lines 218/228/249).
Returns (fired, new last-fire time). -/
def rateGateStep (period : Int) (last : Option Int) (now : Int) : Bool × Int :=
  let l := last.getD now
  if now - l > period then (true, now) else (false, l)

/-- Runs the gate over a list of sample instants from a given last-fire state,
collecting the instants at which it fires. -/
def rateGateFires (period : Int) : Option Int → List Int → List Int
  | _, [] => []
  | last, t :: rest =>
    let r := rateGateStep period last t
    if r.1 then t :: rateGateFires period (some r.2) rest
    else rateGateFires period (some r.2) rest

/-- C1, counterexample: a gate with unset `last_fire` does NOT fire on its
first call — the code initializes the timestamp to `now` and then the strict
comparison `0 > period` fails; with a 250 ms period and samples at
t=0,100,200,300,400 ms the gate fires exactly at t=300, not at t=0 and
t=300. -/
theorem rateGate_first_call_does_not_fire :
    (rateGateStep 250 none 0).1 = false
    ∧ rateGateFires 250 none [0, 100, 200, 300, 400] = [300]
    ∧ rateGateFires 250 none [0, 100, 200, 300, 400] ≠ [0, 300] := by
  refine ⟨by decide, by decide, by decide⟩

/-- C1, amended: for a non-negative period, a call with `last_fire` set fires
and records `now` iff `now - last_fire` strictly exceeds the period; a call
with `last_fire` unset records `now` as the new last-fire time and returns
false (so the first sample never fires, it only initializes the gate); with a
250 ms period and samples at t=0,100,200,300,400 ms the gate fires exactly at
t=300. -/
theorem rateGate_amended_spec :
    (∀ (p : Int) (last : Option Int) (now : Int), 0 ≤ p →
      ((rateGateStep p last now).1 = true ↔ ∃ l, last = some l ∧ now - l > p)
      ∧ (last = none → rateGateStep p last now = (false, now))
      ∧ (∀ l, last = some l →
          rateGateStep p last now = if now - l > p then (true, now) else (false, l)))
    ∧ rateGateFires 250 none [0, 100, 200, 300, 400] = [300] := by
  constructor
  · intro p last now hp
    refine ⟨?_, ?_, ?_⟩
    · constructor
      · intro hfire
        cases last with
        | none =>
          exfalso
          simp only [rateGateStep, Option.getD_none, sub_self] at hfire
          rw [if_neg (by omega)] at hfire
          exact Bool.false_ne_true hfire
        | some l =>
          refine ⟨l, rfl, ?_⟩
          simp only [rateGateStep, Option.getD_some] at hfire
          by_contra hgap
          rw [if_neg hgap] at hfire
          exact Bool.false_ne_true hfire
      · rintro ⟨l, hl, hgap⟩
        subst hl
        simp only [rateGateStep, Option.getD_some]
        rw [if_pos hgap]
    · intro hnone
      subst hnone
      simp only [rateGateStep, Option.getD_none, sub_self]
      rw [if_neg (by omega)]
    · intro l hl
      subst hl
      simp only [rateGateStep, Option.getD_some]
  · decide

/-- C1, witness for the amended theorem at period 250, last-fire 0, now 300:
the gate fires. -/
theorem rateGate_amended_spec_witness :
    (rateGateStep 250 (some 0) 300).1 = true :=
  ((rateGate_amended_spec.1 250 (some 0) 300 (by decide)).1).mpr
    ⟨0, rfl, by decide⟩

/-- The sign-inversion step of `on_packet` (lines 203-206): negate the raw
current iff `invert_current` is set. -/
def signedCurrent (invert : Bool) (raw : ℚ) : ℚ :=
  if invert then -raw else raw

/-- `ColumnDataSource.stream(..., rollover=MAX_X_POINTS)` as invoked by the
`update` coroutine (lines 260-265): push the point to the back, and when the
length exceeds the rollover capacity discard from the front until the length
equals the capacity. -/
def streamRollover (c : Nat) (w : List PlotPoint) (p : PlotPoint) : List PlotPoint :=
  let w1 := w ++ [p]
  if w1.length > c then w1.drop (w1.length - c) else w1

/-- `on_packet` (lines 181-249). Returns the new state, the CSV rows written
directly from the acquisition context, and the tasks submitted to the UI
consumer loop (plot stream first, then measurement text, in code order).
Early-returns untouched unless `main_state == RUNNING` and the command is
`DAT_RECV`; otherwise initializes `None` last-fire times to `now`, computes
the post-sign current and power, and runs the three rate gates: the log gate
(guarded by `logging`) and the status gate both compare against
`log_period_ms`, the plot gate against `plot_period_ms`. -/
def onPacket (s : AppState) (packet : HIDPacket) (now : Int) (nowStr : String) :
    AppState × List LogRow × List UIUpdate :=
  if s.mainState ≠ MState.RUNNING then (s, [], [])
  else if packet.payload.command ≠ Command.DAT_RECV then (s, [], [])
  else
    let last_meas0 := s.last_meas_time.getD now
    let last_log0 := s.last_log_time.getD now
    let last_plot0 := s.last_plot_time.getD now
    let d := packet.payload.data
    let current := signedCurrent s.invert_current d.current
    let power := d.voltage * current
    let logFired : Bool := s.logging && decide (now - last_log0 > s.log_period_ms)
    let rows : List LogRow :=
      if logFired then
        [⟨now, d.voltage, current, power, d.ah, d.wh,
          d.recmA, d.recTime, d.recGrp + 1, d.runTime⟩]
      else []
    let last_log1 := if logFired then now else last_log0
    let plotFired : Bool := decide (now - last_plot0 > s.plot_period_ms)
    let plotUpds : List UIUpdate :=
      if plotFired then [UIUpdate.stream ⟨now, nowStr, d.voltage, current, power⟩]
      else []
    let last_plot1 := if plotFired then now else last_plot0
    let measFired : Bool := decide (now - last_meas0 > s.log_period_ms)
    let measUpds : List UIUpdate :=
      if measFired then
        [UIUpdate.setMeasText ⟨d.voltage, current, power, nowStr, d.ah, d.wh,
          d.recmA, d.recTime, d.recGrp + 1, d.runTime,
          d.offHour, d.offPer, d.reserved⟩]
      else []
    let last_meas1 := if measFired then now else last_meas0
    ({ s with
        last_meas_time := some last_meas1
        last_log_time := some last_log1
        last_plot_time := some last_plot1 },
     rows, plotUpds ++ measUpds)

/-- `on_error` (lines 252-257): submit the error text to the status label via
the bridge and force `main_state` to `STOPPED` from the acquisition
context. -/
def onError (err : String) (s : AppState) : AppState × List UIUpdate :=
  ({ s with mainState := MState.STOPPED }, [UIUpdate.setStatusText err])

/-- `on_clear_plot_button` (lines 392-397): reset the `data_source` columns
to empty. -/
def onClearPlotButton (s : AppState) : AppState :=
  { s with window := [] }

/-- `on_open_conn_button` (lines 324-332): disable the device-select, open
and sign-switch controls, clear the plot, and set `main_state` to
`INITIALIZING` — unconditionally, with no check of the current state. -/
def onOpenConnButton (s : AppState) : AppState :=
  let s1 := { s with
    deviceSelectDisabled := true
    openConnDisabled := true
    invertSwitchDisabled := true }
  let s2 := onClearPlotButton s1
  { s2 with mainState := MState.INITIALIZING }

/-- `on_close_conn_button` (lines 335-339). -/
def onCloseConnButton (s : AppState) : AppState :=
  { s with closeConnDisabled := true, mainState := MState.STOPPING }

/-- `on_invert_sign_switch` (lines 342-345). -/
def onInvertSignSwitch (b : Bool) (s : AppState) : AppState :=
  { s with invert_current := b }

/-- `on_start_log_button` (lines 362-372): disable the title/log-period/start
controls, enable stop, build the CSV file name from the current time and the
user-chosen title (spaces replaced by dashes), clear the plot, and activate
logging. `nowStr` stands for `datetime.now().strftime('%Y-%m-%d_%H-%M-%S')`. -/
def onStartLogButton (nowStr : String) (s : AppState) : AppState :=
  let s1 := { s with
    titleInputDisabled := true
    logPeriodDisabled := true
    startLogDisabled := true
    stopLogDisabled := false
    clearPlotDisabled := true }
  let s2 := { s1 with
    csv_file := nowStr ++ "_" ++ (s1.plot_title.replace " " "-") ++ ".csv" }
  let s3 := onClearPlotButton s2
  { s3 with logging := true }

/-- `on_stop_log_button` (lines 375-383). -/
def onStopLogButton (s : AppState) : AppState :=
  { s with
    titleInputDisabled := false
    logPeriodDisabled := false
    startLogDisabled := false
    stopLogDisabled := true
    clearPlotDisabled := false
    logging := false }

/-- `on_log_period_input` (lines 356-359). -/
def onLogPeriodInput (v : Int) (s : AppState) : AppState :=
  { s with log_period_ms := v }

/-- `on_plot_period_input` (lines 386-389). -/
def onPlotPeriodInput (v : Int) (s : AppState) : AppState :=
  { s with plot_period_ms := v }

/-- The failure path of the `INITIALIZING` branch of `main_method`
(lines 281-292): when `USBMeter(...)`/`connect()` raises, the error text is
submitted to the status label and the device-select, open and sign-switch
controls are each re-enabled once, all via the bridge, and `main_state`
returns to `STOPPED`. -/
def initializingConnectFail (err : String) (s : AppState) :
    AppState × List UIUpdate :=
  ({ s with mainState := MState.STOPPED },
   [UIUpdate.setStatusText err,
    UIUpdate.setDeviceSelectDisabled false,
    UIUpdate.setOpenConnDisabled false,
    UIUpdate.setInvertSwitchDisabled false])

/-- Application of one bridged task by the UI consumer loop. -/
def applyUpdate (s : AppState) (u : UIUpdate) : AppState :=
  match u with
  | UIUpdate.setStatusText t => { s with statusText := t }
  | UIUpdate.setDeviceSelectDisabled b => { s with deviceSelectDisabled := b }
  | UIUpdate.setOpenConnDisabled b => { s with openConnDisabled := b }
  | UIUpdate.setInvertSwitchDisabled b => { s with invertSwitchDisabled := b }
  | UIUpdate.setCloseConnDisabled b => { s with closeConnDisabled := b }
  | UIUpdate.stream p => { s with window := streamRollover MAX_X_POINTS s.window p }
  | UIUpdate.setMeasText m => { s with measData := some m }

/-- The UI consumer loop draining a list of submitted tasks in order. -/
def applyUpdates (s : AppState) (l : List UIUpdate) : AppState :=
  l.foldl applyUpdate s

/-- Folding `streamRollover` from a window within capacity keeps the last
`c` elements of the concatenation. -/
theorem streamRollover_foldl (c : Nat) :
    ∀ (xs w : List PlotPoint), w.length ≤ c →
      List.foldl (streamRollover c) w xs
        = (w ++ xs).drop (w.length + xs.length - c) := by
  intro xs
  induction xs with
  | nil =>
    intro w hw
    simp only [List.foldl_nil, List.length_nil, List.append_nil]
    rw [Nat.add_zero, Nat.sub_eq_zero_of_le hw, List.drop_zero]
  | cons x xs ih =>
    intro w hw
    rw [List.foldl_cons]
    by_cases h : w.length + 1 ≤ c
    · have hstep : streamRollover c w x = w ++ [x] := by
        simp only [streamRollover, List.length_append, List.length_singleton]
        rw [if_neg (by omega)]
      rw [hstep, ih (w ++ [x]) (by simpa using h)]
      rw [List.append_assoc, List.singleton_append, List.length_append,
        List.length_singleton, List.length_cons]
      congr 1
      omega
    · have hwc : w.length = c := by omega
      have hstep : streamRollover c w x = (w ++ [x]).drop 1 := by
        simp only [streamRollover, List.length_append, List.length_singleton]
        rw [if_pos (by omega)]
        congr 1
        omega
      have hlen : ((w ++ [x]).drop 1).length ≤ c := by
        simp only [List.length_drop, List.length_append, List.length_singleton]
        omega
      rw [hstep, ih ((w ++ [x]).drop 1) hlen]
      have hsplit : (w ++ [x]).drop 1 ++ xs = ((w ++ [x]) ++ xs).drop 1 :=
        (List.drop_append_of_le_length (by simp)).symm
      rw [hsplit, List.drop_drop]
      rw [List.append_assoc, List.singleton_append, List.length_cons]
      congr 1
      simp only [List.length_drop, List.length_append, List.length_singleton]
      omega

/-- C2: streaming N points into an empty source with rollover capacity
`MAX_X_POINTS` leaves exactly `min N MAX_X_POINTS` points, namely the most
recently appended ones in their original relative order (the suffix of the
input obtained by dropping the oldest `N - MAX_X_POINTS`). -/
theorem rollingWindow_keeps_last_min (xs : List PlotPoint) :
    List.foldl (streamRollover MAX_X_POINTS) [] xs
      = xs.drop (xs.length - MAX_X_POINTS)
    ∧ (List.foldl (streamRollover MAX_X_POINTS) [] xs).length
      = min xs.length MAX_X_POINTS := by
  have h := streamRollover_foldl MAX_X_POINTS xs [] (by simp)
  simp only [List.length_nil, List.nil_append, Nat.zero_add] at h
  refine ⟨h, ?_⟩
  rw [h, List.length_drop]
  omega

/-- Number of tasks in a submitted batch matched by a predicate. -/
def countUpd (q : UIUpdate → Bool) (l : List UIUpdate) : Nat :=
  (l.filter q).length

/-- Matches a task that re-enables the device-select control. -/
def isDeviceSelectEnable : UIUpdate → Bool
  | UIUpdate.setDeviceSelectDisabled false => true
  | _ => false

/-- Matches a task that re-enables the open-connection control. -/
def isOpenConnEnable : UIUpdate → Bool
  | UIUpdate.setOpenConnDisabled false => true
  | _ => false

/-- Matches a task that re-enables the sign-switch control. -/
def isInvertSwitchEnable : UIUpdate → Bool
  | UIUpdate.setInvertSwitchDisabled false => true
  | _ => false

/-- Matches a measurement-label update task. -/
def isMeasUpd : UIUpdate → Bool
  | UIUpdate.setMeasText _ => true
  | _ => false

/-- Matches a plot stream task. -/
def isPlotUpd : UIUpdate → Bool
  | UIUpdate.stream _ => true
  | _ => false

/-- C3: starting from `STOPPED`, an open request followed by a failing
connect ends with the state back at `STOPPED`; once the UI consumer loop
drains the submitted batch, the status text equals the error message and the
device-select, open and sign-switch controls are enabled again; the batch
re-enables each of the three controls exactly once. -/
theorem connect_failure_recovers_to_stopped (s : AppState) (err : String)
    (h : s.mainState = MState.STOPPED) :
    ((initializingConnectFail err (onOpenConnButton s)).1).mainState = MState.STOPPED
    ∧ (applyUpdates (initializingConnectFail err (onOpenConnButton s)).1
        (initializingConnectFail err (onOpenConnButton s)).2).statusText = err
    ∧ (applyUpdates (initializingConnectFail err (onOpenConnButton s)).1
        (initializingConnectFail err (onOpenConnButton s)).2).deviceSelectDisabled = false
    ∧ (applyUpdates (initializingConnectFail err (onOpenConnButton s)).1
        (initializingConnectFail err (onOpenConnButton s)).2).openConnDisabled = false
    ∧ (applyUpdates (initializingConnectFail err (onOpenConnButton s)).1
        (initializingConnectFail err (onOpenConnButton s)).2).invertSwitchDisabled = false
    ∧ countUpd isDeviceSelectEnable (initializingConnectFail err (onOpenConnButton s)).2 = 1
    ∧ countUpd isOpenConnEnable (initializingConnectFail err (onOpenConnButton s)).2 = 1
    ∧ countUpd isInvertSwitchEnable (initializingConnectFail err (onOpenConnButton s)).2 = 1 :=
  ⟨rfl, rfl, rfl, rfl, rfl, rfl, rfl, rfl⟩

/-- C3, witness: the failure path from the initial state with error text
"boom" leaves the status text at "boom". -/
theorem connect_failure_recovers_witness :
    (applyUpdates (initializingConnectFail "boom" (onOpenConnButton initialAppState)).1
      (initializingConnectFail "boom" (onOpenConnButton initialAppState)).2).statusText
      = "boom" :=
  (connect_failure_recovers_to_stopped initialAppState "boom" rfl).2.1

/-- C4, counterexample: from the `RUNNING` state, the open-request handler
does NOT leave the state unchanged — it unconditionally enters
`INITIALIZING`; there is no structural rejection inside the handler. -/
theorem open_handler_not_guarded_cex :
    ({ initialAppState with mainState := MState.RUNNING }).mainState = MState.RUNNING
    ∧ (onOpenConnButton
        { initialAppState with mainState := MState.RUNNING }).mainState
        = MState.INITIALIZING
    ∧ MState.INITIALIZING ≠ MState.RUNNING :=
  ⟨rfl, rfl, by decide⟩

/-- C4, amended: the open-request handler transitions to `INITIALIZING`
regardless of the current connection state — it performs no state check, so
re-entrant open requests while not Stopped are prevented only by the open
control being disabled in the UI (which the handler itself sets). -/
theorem open_handler_unconditional (s : AppState) :
    (onOpenConnButton s).mainState = MState.INITIALIZING
    ∧ (onOpenConnButton s).deviceSelectDisabled = true
    ∧ (onOpenConnButton s).openConnDisabled = true
    ∧ (onOpenConnButton s).invertSwitchDisabled = true :=
  ⟨rfl, rfl, rfl, rfl⟩

/-- C5, counterexample: the device error callback mutates the connection
state — from `RUNNING`, `on_error` forces it to `STOPPED`, so the supervising
loop is not the only writer. -/
theorem error_callback_mutates_state_cex :
    ({ initialAppState with mainState := MState.RUNNING }).mainState = MState.RUNNING
    ∧ ((onError "boom"
        { initialAppState with mainState := MState.RUNNING }).1).mainState
        = MState.STOPPED
    ∧ MState.STOPPED ≠ MState.RUNNING :=
  ⟨rfl, rfl, by decide⟩

/-- C5, amended: the ingestion packet handler only reads the connection state
(to early-return when not `RUNNING`) and never transitions it; the device
error callback, however, also writes the state, forcing it to `STOPPED`, so
the supervising loop is not the sole writer. -/
theorem packet_handler_never_writes_state (s : AppState) (p : HIDPacket)
    (now : Int) (str : String) (err : String) :
    ((onPacket s p now str).1).mainState = s.mainState
    ∧ ((onError err s).1).mainState = MState.STOPPED := by
  constructor
  · unfold onPacket
    split
    · rfl
    · split
      · rfl
      · rfl
  · rfl

/-- A concrete measurement payload: 5 V, 1 A raw, zero accumulators. -/
def sampleRaw : RawData :=
  ⟨5, 1, 0, 0, 0, 0, 0, 0, 0, 0, 0⟩

/-- A concrete `DAT_RECV` packet carrying `sampleRaw`. -/
def samplePacket : HIDPacket :=
  ⟨⟨Command.DAT_RECV, sampleRaw⟩⟩

/-- A running state whose three gates all last fired at t=0, with the log
period set to `lp` ms. -/
def runningAt0 (lp : Int) : AppState :=
  { initialAppState with
    mainState := MState.RUNNING
    last_meas_time := some 0
    last_log_time := some 0
    last_plot_time := some 0
    log_period_ms := lp }

/-- C6, counterexample: two runs of the packet handler at t=100 ms that
differ only in the log-gate period: with log period 50 ms the status-summary
gate fires, with log period 250 ms it does not — reconfiguring the log-gate
period changes the status-summary gate's behaviour, because the status gate's
firing decision is made against `log_period_ms`, not a period of its own. -/
theorem status_gate_shares_log_period_cex :
    countUpd isMeasUpd ((onPacket (runningAt0 50) samplePacket 100 "t").2.2) = 1
    ∧ countUpd isMeasUpd ((onPacket (runningAt0 250) samplePacket 100 "t").2.2) = 0 := by
  refine ⟨by decide, by decide⟩

/-- C6, amended: the three gates keep independent last-fire timestamps, and
the plot gate is configured by its own `plot_period_ms`; but the
status-summary gate's firing decision is made against the log gate's
`log_period_ms`, so reconfiguring the log-gate period also reconfigures the
status-summary gate. -/
theorem gate_periods_amended (s : AppState) (p : HIDPacket)
    (now : Int) (str : String) (lm lp : Int)
    (hs : s.mainState = MState.RUNNING)
    (hc : p.payload.command = Command.DAT_RECV)
    (hm : s.last_meas_time = some lm)
    (hpl : s.last_plot_time = some lp) :
    (countUpd isMeasUpd (onPacket s p now str).2.2
        = if now - lm > s.log_period_ms then 1 else 0)
    ∧ (countUpd isPlotUpd (onPacket s p now str).2.2
        = if now - lp > s.plot_period_ms then 1 else 0)
    ∧ ((onPacket s p now str).1).last_meas_time
        = some (if now - lm > s.log_period_ms then now else lm)
    ∧ ((onPacket s p now str).1).last_plot_time
        = some (if now - lp > s.plot_period_ms then now else lp) := by
  have h1 : ¬ s.mainState ≠ MState.RUNNING := by simp [hs]
  have h2 : ¬ p.payload.command ≠ Command.DAT_RECV := by simp [hc]
  unfold onPacket
  rw [if_neg h1, if_neg h2, hm, hpl]
  simp only [Option.getD_some]
  by_cases hmeas : now - lm > s.log_period_ms
  · by_cases hplot : now - lp > s.plot_period_ms
    · simp [countUpd, isMeasUpd, isPlotUpd, hmeas, hplot, List.filter_append]
    · simp [countUpd, isMeasUpd, isPlotUpd, hmeas, hplot, List.filter_append]
  · by_cases hplot : now - lp > s.plot_period_ms
    · simp [countUpd, isMeasUpd, isPlotUpd, hmeas, hplot, List.filter_append]
    · simp [countUpd, isMeasUpd, isPlotUpd, hmeas, hplot, List.filter_append]

/-- C6, witness for the amended theorem: in the running state with log period
50 ms and the status gate last fired at 0, a packet at t=100 ms produces
exactly one measurement-label update. -/
theorem gate_periods_amended_witness :
    countUpd isMeasUpd ((onPacket (runningAt0 50) samplePacket 100 "t").2.2)
      = if (100 : Int) - 0 > (runningAt0 50).log_period_ms then 1 else 0 :=
  (gate_periods_amended (runningAt0 50) samplePacket 100 "t" 0 0
    rfl rfl rfl rfl).1

/-- C7: when the connection state is not `RUNNING` or the packet's command is
not `DAT_RECV`, the packet handler has no observable effect: the state (in
particular all three gate timestamps) is unchanged, no CSV row is written,
and no UI task is submitted. -/
theorem non_running_or_non_data_no_effect (s : AppState) (p : HIDPacket)
    (now : Int) (str : String)
    (h : s.mainState ≠ MState.RUNNING ∨ p.payload.command ≠ Command.DAT_RECV) :
    onPacket s p now str = (s, [], []) := by
  unfold onPacket
  rcases h with h | h
  · rw [if_pos h]
  · by_cases hs : s.mainState ≠ MState.RUNNING
    · rw [if_pos hs]
    · rw [if_neg hs, if_pos h]

/-- C7, witness: a `DAT_RECV` packet arriving in the initial (`STOPPED`)
state is dropped with no effect. -/
theorem non_running_no_effect_witness :
    onPacket initialAppState samplePacket 0 "t" = (initialAppState, [], []) :=
  non_running_or_non_data_no_effect initialAppState samplePacket 0 "t"
    (Or.inl (by decide))

/-- A running state with logging active: log file open, all gates last fired
at t=0, default 250 ms log period. -/
def loggingAt0 : AppState :=
  { initialAppState with
    mainState := MState.RUNNING
    logging := true
    last_meas_time := some 0
    last_log_time := some 0
    last_plot_time := some 0 }

/-- C8: a log-gated sample (running, `DAT_RECV`, logging active, log gate
firing) yields exactly one CSV row with the fixed schema — timestamp,
voltage, post-sign current, power = voltage × post-sign current, accumulated
charge, accumulated energy, threshold, recording duration, group index
`recGrp + 1`, uptime — and the log gate records the sample time; activating
logging via the start-log handler turns the `logging` flag on and opens a
sink whose name is the activation timestamp, an underscore, the user-chosen
title with spaces replaced by dashes, and the `.csv` suffix. -/
theorem log_row_schema_and_sink_name (s : AppState) (p : HIDPacket)
    (now : Int) (str : String) (ll : Int)
    (hs : s.mainState = MState.RUNNING)
    (hc : p.payload.command = Command.DAT_RECV)
    (hlog : s.logging = true)
    (hl : s.last_log_time = some ll)
    (hfire : now - ll > s.log_period_ms) :
    (onPacket s p now str).2.1
      = [⟨now, p.payload.data.voltage,
          signedCurrent s.invert_current p.payload.data.current,
          p.payload.data.voltage * signedCurrent s.invert_current p.payload.data.current,
          p.payload.data.ah, p.payload.data.wh, p.payload.data.recmA,
          p.payload.data.recTime, p.payload.data.recGrp + 1,
          p.payload.data.runTime⟩]
    ∧ ((onPacket s p now str).1).last_log_time = some now
    ∧ (∀ (ns : String) (t : AppState),
        (onStartLogButton ns t).logging = true
        ∧ (onStartLogButton ns t).csv_file
            = ns ++ "_" ++ (t.plot_title.replace " " "-") ++ ".csv") := by
  have h1 : ¬ s.mainState ≠ MState.RUNNING := by simp [hs]
  have h2 : ¬ p.payload.command ≠ Command.DAT_RECV := by simp [hc]
  refine ⟨?_, ?_, fun ns t => ⟨rfl, rfl⟩⟩
  · unfold onPacket
    rw [if_neg h1, if_neg h2, hl]
    simp only [Option.getD_some]
    simp [hlog, hfire]
  · unfold onPacket
    rw [if_neg h1, if_neg h2, hl]
    simp only [Option.getD_some]
    simp [hlog, hfire]

/-- C8, witness: in the logging state, a 5 V / 1 A packet at t=300 ms (with
current-sign inversion on) appends exactly the row
(300, 5, -1, -5, 0, 0, 0, 0, 1, 0). -/
theorem log_row_schema_witness :
    (onPacket loggingAt0 samplePacket 300 "t").2.1
      = [⟨300, 5, -1, -5, 0, 0, 0, 0, 1, 0⟩] := by
  rw [(log_row_schema_and_sink_name loggingAt0 samplePacket 300 "t" 0
    rfl rfl rfl rfl (by decide)).1]
  norm_num [samplePacket, sampleRaw, loggingAt0, initialAppState, signedCurrent]

/-- Events arriving at the acquisition context interleaved with sign-policy
flips performed by the UI loop (`on_invert_sign_switch`). -/
inductive StreamEvent where
  | pkt (p : HIDPacket) (now : Int) (nowStr : String)
  | setInvert (b : Bool)

/-- Runs a sequence of packets and sign-policy flips through `on_packet` and
`on_invert_sign_switch`, collecting all submitted UI tasks in order. -/
def runStream : AppState → List StreamEvent → AppState × List UIUpdate
  | s, [] => (s, [])
  | s, StreamEvent.pkt p now str :: rest =>
    let r := onPacket s p now str
    let cont := runStream r.1 rest
    (cont.1, r.2.2 ++ cont.2)
  | s, StreamEvent.setInvert b :: rest => runStream (onInvertSignSwitch b s) rest

/-- Splitting a run of the stream at any point: the tasks emitted are those
of the first part followed by those of the second part run from the
intermediate state. -/
theorem runStream_append (l1 : List StreamEvent) :
    ∀ (s : AppState) (l2 : List StreamEvent),
      runStream s (l1 ++ l2)
        = ((runStream (runStream s l1).1 l2).1,
           (runStream s l1).2 ++ (runStream (runStream s l1).1 l2).2) := by
  induction l1 with
  | nil =>
    intro s l2
    simp [runStream]
  | cons e rest ih =>
    intro s l2
    cases e with
    | pkt p now str =>
      simp only [List.cons_append, runStream, List.append_eq]
      rw [ih]
      simp [List.append_assoc]
    | setInvert b =>
      simp only [List.cons_append, runStream, List.append_eq]
      rw [ih]

/-- C9: the sample transform negates the raw current iff the sign-inversion
policy is set; a plot-gated sample carries the post-sign current and
power = voltage × post-sign current computed from the policy at transform
time; and a mid-stream policy flip leaves every UI task emitted before the
flip unchanged — the run of the extended stream extends the earlier emissions
without modifying them. -/
theorem sign_policy_transform_time :
    (∀ (raw : ℚ), signedCurrent true raw = -raw ∧ signedCurrent false raw = raw)
    ∧ (∀ (s : AppState) (p : HIDPacket) (now : Int) (str : String) (lp : Int),
        s.mainState = MState.RUNNING →
        p.payload.command = Command.DAT_RECV →
        s.last_plot_time = some lp →
        now - lp > s.plot_period_ms →
        (onPacket s p now str).2.2.filter isPlotUpd
          = [UIUpdate.stream ⟨now, str, p.payload.data.voltage,
              signedCurrent s.invert_current p.payload.data.current,
              p.payload.data.voltage
                * signedCurrent s.invert_current p.payload.data.current⟩])
    ∧ (∀ (s : AppState) (evs tail : List StreamEvent) (b : Bool),
        ∃ later, (runStream s (evs ++ StreamEvent.setInvert b :: tail)).2
          = (runStream s evs).2 ++ later) := by
  refine ⟨fun raw => ⟨rfl, rfl⟩, ?_, ?_⟩
  · intro s p now str lp hs hc hpl hfire
    have h1 : ¬ s.mainState ≠ MState.RUNNING := by simp [hs]
    have h2 : ¬ p.payload.command ≠ Command.DAT_RECV := by simp [hc]
    unfold onPacket
    rw [if_neg h1, if_neg h2, hpl]
    simp only [Option.getD_some]
    by_cases hmeas : now - (s.last_meas_time.getD now) > s.log_period_ms
    · simp [isPlotUpd, hfire, hmeas, List.filter_append]
    · simp [isPlotUpd, hfire, hmeas, List.filter_append]
  · intro s evs tail b
    exact ⟨(runStream (runStream s evs).1 (StreamEvent.setInvert b :: tail)).2,
      by rw [runStream_append]⟩

/-- C9, witness: with inversion on, the plot-gated sample at t=300 ms carries
current -1 A and power -5 W. -/
theorem sign_policy_witness :
    (onPacket loggingAt0 samplePacket 300 "t").2.2.filter isPlotUpd
      = [UIUpdate.stream ⟨300, "t", 5, -1, -5⟩] := by
  rw [sign_policy_transform_time.2.1 loggingAt0 samplePacket 300 "t" 0
    rfl rfl rfl (by decide)]
  norm_num [samplePacket, sampleRaw, loggingAt0, initialAppState, signedCurrent]

/-- C10: handling an open-connection request resets the rolling window store
to empty (and enters `INITIALIZING`), and handling a start-logging request
resets it to empty (and activates logging) — both by invoking the clear-plot
handler, whose effect is an empty window; previously plotted points never
survive into a new connection or logging session. -/
theorem handlers_clear_window (s : AppState) (ns : String) :
    (onOpenConnButton s).window = []
    ∧ (onOpenConnButton s).mainState = MState.INITIALIZING
    ∧ (onStartLogButton ns s).window = []
    ∧ (onStartLogButton ns s).logging = true
    ∧ (onClearPlotButton s).window = [] :=
  ⟨rfl, rfl, rfl, rfl, rfl⟩
